import Mathlib

/-!
Verification development for the FFC competition server
(`server-enhanced.js` family: Express + SQLite backend for puzzle scores
and quiz submissions).  The definitions below are a shallow embedding of
the relevant JavaScript routines and SQL statements; the theorems settle
the frozen specification claims against them.
-/

namespace FFC

/-- Model of the JavaScript values that flow through the request handlers:
`undefined`, `null`, strings, (integer) numbers and plain objects.  Object
fields are kept as an association list in insertion order. -/
inductive JSVal where
  | undefV : JSVal
  | nullV : JSVal
  | str : String → JSVal
  | num : Int → JSVal
  | obj : List (String × JSVal) → JSVal

/-- JavaScript truthiness for the modelled values: `undefined`, `null`,
the empty string and `0` are falsy; objects are always truthy. -/
def truthy : JSVal → Bool
  | .undefV => false
  | .nullV => false
  | .str s => !(s == "")
  | .num n => !(n == 0)
  | .obj _ => true

/-- Strict-equality test against `undefined` (`x === undefined`): only the
`undefined` value itself matches (in particular `null` does not). -/
def isUndef : JSVal → Bool
  | .undefV => true
  | _ => false

/-- Test for `null` or `undefined`, as used by
`rawAnswers[fieldName] !== null && rawAnswers[fieldName] !== undefined`. -/
def isNullish : JSVal → Bool
  | .undefV => true
  | .nullV => true
  | _ => false

/-- JavaScript string coercion of a modelled value, as performed by
`RegExp.test` on a non-string argument. -/
def jsToString : JSVal → String
  | .undefV => "undefined"
  | .nullV => "null"
  | .str s => s
  | .num n => toString n
  | .obj _ => "[object Object]"

/-- Field lookup in an association list of object fields: the first
binding wins, a missing key yields `undefined`. -/
def lookupField : List (String × JSVal) → String → JSVal
  | [], _ => .undefV
  | (k, v) :: rest, key => if k == key then v else lookupField rest key

/-- JavaScript property access `o[key]`: `undefined` on a missing key, and
the handlers only ever read properties of objects, so non-objects give
`undefined` here as well. -/
def getField (v : JSVal) (key : String) : JSVal :=
  match v with
  | .obj fs => lookupField fs key
  | _ => .undefV

/-- Character class of the regular expression escape for whitespace, as
relevant to email strings. -/
def isJsWs (c : Char) : Bool :=
  c == ' ' || c == '\t' || c == '\n' || c == '\r' || c == '\x0b' || c == '\x0c'

/-- One maximal chunk of an email address: nonempty, with no whitespace
character and no at-sign. -/
def emailChunkOk (l : List Char) : Bool :=
  !l.isEmpty && l.all (fun c => !(isJsWs c) && !(c == '@'))

/-- Embedding of the validator regular expression
`/^[^\s@]+@[^\s@]+\.[^\s@]+$/`: the string must factor as
`local ++ "@" ++ mid ++ "." ++ tail` with nonempty chunks free of
whitespace and at-signs.  Since no chunk may contain an at-sign the
string must contain exactly one, so splitting on the at-sign yields
exactly two parts, and the part after it must contain a dot that is
neither its first nor its last character. -/
def emailValid (s : String) : Bool :=
  match s.toList.splitOn '@' with
  | [l, r] => emailChunkOk l && emailChunkOk r && (r.drop 1).dropLast.contains '.'
  | _ => false

/-- The email check as applied to a request-body value (coerced to a
string the way `RegExp.test` would). -/
def emailOk (v : JSVal) : Bool :=
  emailValid (jsToString v)

/-- Readiness of the SQLite store as observed through the module globals
`db` (connection object or not yet assigned) and `dbReady` / `dbError`:
the spec names these phases Uninitialized, Initializing, Ready and
Failed(reason). -/
inductive DBState where
  | uninitialized : DBState
  | initializing : DBState
  | ready : DBState
  | failed : String → DBState
deriving DecidableEq, Repr

/-- The readiness guard `if (!db || !dbReady)` shared by every data route:
it lets a request through exactly in the `ready` state. -/
def DBState.isReady : DBState → Bool
  | .ready => true
  | _ => false

/-- Outcomes of the five steps performed by the database initialization
routine `initializeDatabase`: opening the connection, creating the
`scores` and `quiz_answers` tables, the self-test insert, and the
self-test delete.  Each entry is `none` on success or carries the error
message produced by that step. -/
structure InitEnv where
  openErr : Option String
  createScoresErr : Option String
  createQuizErr : Option String
  testInsertErr : Option String
  testDeleteErr : Option String
deriving DecidableEq, Repr

/-- Embedding of `initializeDatabase`: the steps run in sequence and the
first failing step records its error and leaves the store not ready.
After a successful self-test insert the cleanup delete runs, and its
callback sets `dbReady = true` and `dbError = null` whether or not the
delete itself reported an error (only the cleanup log line is guarded by
`if (!err)`). -/
def initDatabase (env : InitEnv) : DBState :=
  match env.openErr with
  | some e => .failed e
  | none =>
    match env.createScoresErr with
    | some e => .failed e
    | none =>
      match env.createQuizErr with
      | some e => .failed e
      | none =>
        match env.testInsertErr with
        | some e => .failed e
        | none => .ready

/-- A row of the `scores` table under its declared schema: the typed view
of one persisted Completion. -/
structure Completion where
  id : Nat
  session_id : String
  name : String
  email : String
  completion_time : Int
  time_string : String
  difficulty : Int
  move_count : Int
  accuracy : Int
  completed_at : String
  results_code : String
  created_at : String
deriving DecidableEq, Repr

/-- A row of the `quiz_answers` table under its declared schema.  The four
identity fields and the submission timestamp are NOT NULL; every answer
field is nullable. -/
structure QuizSubmission where
  id : Nat
  session_id : String
  participant_name : String
  participant_email : String
  participant_mobile : String
  question1_part1 : Option String
  question1_part2 : Option String
  question2 : Option String
  question3_part1 : Option String
  question3_part2 : Option String
  question4_part1 : Option String
  question4_part2 : Option String
  question5_part1 : Option String
  question5_part2 : Option String
  question6 : Option String
  recipient1_name : Option String
  recipient1_role : Option String
  recipient2_name : Option String
  recipient2_position : Option String
  question7 : Option String
  additional_comments : Option String
  submitted_at : String
  created_at : String
deriving DecidableEq, Repr

/-- The ten properties destructured from the body of a `POST /api/scores`
request, each an arbitrary JavaScript value (missing properties read as
`undefined`). -/
structure ScorePayload where
  sessionId : JSVal
  name : JSVal
  email : JSVal
  completionTime : JSVal
  timeString : JSVal
  difficulty : JSVal
  moveCount : JSVal
  accuracy : JSVal
  completedAt : JSVal
  resultsCode : JSVal

/-- The `required` list returned by the score route with every
missing-fields response; the route always sends the full list of ten
field names. -/
def requiredScoreFields : List String :=
  ["sessionId", "name", "email", "completionTime", "timeString",
   "difficulty", "moveCount", "accuracy", "completedAt", "resultsCode"]

/-- The missing-field test of `POST /api/scores`, a truthiness check on
nine fields plus a strict `=== undefined` comparison for `accuracy`. -/
def scoreFieldsMissing (p : ScorePayload) : Bool :=
  !(truthy p.sessionId) || !(truthy p.name) || !(truthy p.email) ||
  !(truthy p.completionTime) || !(truthy p.timeString) ||
  !(truthy p.difficulty) || !(truthy p.moveCount) ||
  isUndef p.accuracy || !(truthy p.completedAt) || !(truthy p.resultsCode)

/-- Responses of the score-submission route. -/
inductive ScoresResult where
  | storeUnavailable : ScoresResult
  | missingFields : List String → ScoresResult
  | invalidEmail : ScoresResult
  | saved : ScoresResult
deriving DecidableEq, Repr

/-- Embedding of `POST /api/scores` (`submitCompletion`): the readiness
guard runs first, then the missing-field check, then the email format
check, and only then is the payload inserted into the `scores` table.
SQLite stores the bound values dynamically, so the persisted row is
modelled as the payload itself. -/
def postScores (st : DBState) (store : List ScorePayload) (p : ScorePayload) :
    ScoresResult × List ScorePayload :=
  if !st.isReady then (.storeUnavailable, store)
  else if scoreFieldsMissing p then (.missingFields requiredScoreFields, store)
  else if !(emailOk p.email) then (.invalidEmail, store)
  else (.saved, store ++ [p])

/-- Responses of the quiz duplicate-check route. -/
inductive DupCheckResult where
  | storeUnavailable : DupCheckResult
  | missingFields : List String → DupCheckResult
  | ok : Bool → Nat → DupCheckResult
deriving DecidableEq, Repr

/-- Predicate of the duplicate-check query
`participant_email = ? OR participant_name = ?`. -/
def dupMatches (email name : String) (q : QuizSubmission) : Bool :=
  q.participant_email == email || q.participant_name == name

/-- Embedding of `POST /api/quiz-answers/check-duplicate`
(`checkDuplicateQuiz`): after the readiness guard and the truthiness
check on both inputs, the route counts the quiz rows whose email or name
matches and reports `isDuplicate` as `count > 0` together with the
count. -/
def checkDuplicateQuiz (st : DBState) (quiz : List QuizSubmission)
    (email name : String) : DupCheckResult :=
  if !st.isReady then .storeUnavailable
  else if email == "" || name == "" then
    .missingFields ["participantEmail", "participantName"]
  else
    let cnt := (quiz.filter (dupMatches email name)).length
    .ok (decide (0 < cnt)) cnt

/-- Quiz rows matching one session identifier, in table order; this is
the match set of the join condition `s.session_id = qa.session_id`. -/
def quizMatches (quiz : List QuizSubmission) (sid : String) : List QuizSubmission :=
  quiz.filter (fun q => q.session_id == sid)

/-- SQL LEFT JOIN of the scores table with the quiz table on
`session_id`: each score row produces one output row per matching quiz
row, and a score row with no match produces a single row with NULL quiz
columns (modelled as `none`). -/
def leftJoinQuiz (scores : List Completion) (quiz : List QuizSubmission) :
    List (Completion × Option QuizSubmission) :=
  scores.flatMap fun s =>
    match quizMatches quiz s.session_id with
    | [] => [(s, none)]
    | m :: ms => (m :: ms).map fun q => (s, some q)

/-- The optional `WHERE s.difficulty = ?` clause of the leaderboard
queries. -/
def filterByDifficulty (scores : List Completion) : Option Int → List Completion
  | some d => scores.filter (fun s => s.difficulty == d)
  | none => scores

/-- Comparison used by `ORDER BY s.completion_time ASC`. -/
def rowTimeLE (a b : Completion × Option QuizSubmission) : Prop :=
  a.1.completion_time ≤ b.1.completion_time

instance : DecidableRel rowTimeLE := fun a b => by
  unfold rowTimeLE; infer_instance

instance : IsTotal (Completion × Option QuizSubmission) rowTimeLE :=
  ⟨fun a b => Int.le_total a.1.completion_time b.1.completion_time⟩

instance : IsTrans (Completion × Option QuizSubmission) rowTimeLE :=
  ⟨fun _ _ _ hab hbc => le_trans hab hbc⟩

/-- Embedding of the query of `GET /api/leaderboard-with-quiz`: filter
the scores by the optional difficulty, LEFT JOIN the quiz table on the
session identifier, order the joined rows by completion time ascending
(ties keeping table order, modelled by a stable sort), and apply the
LIMIT to the joined rows. -/
def getJoinedLeaderboard (scores : List Completion) (quiz : List QuizSubmission)
    (difficulty : Option Int) (limit : Nat) :
    List (Completion × Option QuizSubmission) :=
  (List.insertionSort rowTimeLE
     (leftJoinQuiz (filterByDifficulty scores difficulty) quiz)).take limit

/-- Responses of the combined-leaderboard route. -/
inductive LeaderboardResult where
  | storeUnavailable : LeaderboardResult
  | ok : List (Completion × Option QuizSubmission) → LeaderboardResult
deriving DecidableEq, Repr

/-- The `GET /api/leaderboard-with-quiz` route itself: the readiness
guard, then the join query. -/
def leaderboardWithQuiz (st : DBState) (scores : List Completion)
    (quiz : List QuizSubmission) (difficulty : Option Int) (limit : Nat) :
    LeaderboardResult :=
  if !st.isReady then .storeUnavailable
  else .ok (getJoinedLeaderboard scores quiz difficulty limit)

/-- Header and query-parameter values carried by a request, as character
lists (so that slicing the bearer scheme off is plain list arithmetic). -/
abbrev Tok := List Char

/-- The three carriers inspected by the authentication middleware; `none`
models an absent header or query parameter. -/
structure AuthRequest where
  authorization : Option Tok
  xAdminToken : Option Tok
  queryToken : Option Tok

/-- The scheme tag stripped by `authHeader.substring(7)`. -/
def bearerTag : Tok := "Bearer ".toList

/-- Truthiness of an optional header value: present and nonempty. -/
def optTruthy : Option Tok → Bool
  | some t => !t.isEmpty
  | none => false

/-- The JavaScript expression
`req.headers[..x-admin-token..] || req.query.token`: the first operand if
truthy, otherwise the second. -/
def firstTruthy (a b : Option Tok) : Option Tok :=
  if optTruthy a then a else b

/-- Outcomes of the authentication middleware `authenticateAdmin`. -/
inductive AuthOutcome where
  | authRequired : String → AuthOutcome
  | invalidToken : AuthOutcome
  | allowed : AuthOutcome
deriving DecidableEq, Repr

/-- The hint attached to the missing-token response, naming the three
supported transmission mechanisms. -/
def authHint : String :=
  "Provide token via Authorization: Bearer <token>, X-Admin-Token header, or ?token= query parameter"

/-- Embedding of the `authenticateAdmin` middleware: a truthy
authorization header starting with the bearer tag supplies the token
(everything after the first seven characters); otherwise the custom
header or, failing that, the query parameter supplies it; an absent or
empty token is rejected with the hint, a token differing from the
configured secret is rejected as invalid, and an exact match lets the
wrapped handler run. -/
def authenticateAdmin (adminToken : Tok) (r : AuthRequest) : AuthOutcome :=
  let token := firstTruthy r.xAdminToken r.queryToken
  let provided : Option Tok :=
    match r.authorization with
    | some h =>
        if bearerTag.isPrefixOf h then some (h.drop 7)
        else if optTruthy token then token else none
    | none => if optTruthy token then token else none
  match provided with
  | none => .authRequired authHint
  | some t =>
      if t.isEmpty then .authRequired authHint
      else if t ≠ adminToken then .invalidToken
      else .allowed

/-- The sixteen answer-field names copied by `formatQuizAnswers` into
`quiz_responses`, in source order. -/
def simpleFields : List String :=
  ["question1_part1", "question1_part2", "question2", "question3_part1",
   "question3_part2", "question4_part1", "question4_part2", "question5_part1",
   "question5_part2", "question6", "recipient1_name", "recipient1_role",
   "recipient2_name", "recipient2_position", "question7", "additional_comments"]

/-- Embedding of `formatQuizAnswers`: regroup a raw quiz row into
`participant_info` (the four identity fields read under their raw names)
and `quiz_responses` (every answer field that is neither `null` nor
`undefined`, kept in declaration order). -/
def formatQuizAnswers (raw : JSVal) : JSVal :=
  .obj
    [("participant_info", .obj
        [("name", getField raw "participant_name"),
         ("email", getField raw "participant_email"),
         ("mobile", getField raw "participant_mobile"),
         ("submitted_at", getField raw "submitted_at")]),
     ("quiz_responses", .obj
        (simpleFields.filterMap fun k =>
          let v := getField raw k
          if isNullish v then none else some (k, v)))]

/-- CSV cell for a value interpolated without surrounding quotes
(`row.x || ..empty..` on a numeric column): zero renders as the empty
string. -/
def intCell (n : Int) : String :=
  if n == 0 then "" else toString n

/-- CSV cell for a nullable numeric column (the quiz side of the
combined join): NULL and zero both render empty. -/
def optNatCell : Option Nat → String
  | none => ""
  | some n => intCell n

/-- CSV cell for a quoted column without quote doubling
(`"${row.x || ..}"`). -/
def quotedCell (s : String) : String :=
  "\"" ++ s ++ "\""

/-- CSV cell for a quoted free-text column with internal double quotes
doubled (`"${(row.x || ..).replace(..)}"`). -/
def quotedEscCell (s : String) : String :=
  "\"" ++ (s.replace "\"" "\"\"") ++ "\""

/-- String value of a nullable text column under `row.x || ..empty..`. -/
def orEmpty : Option String → String
  | none => ""
  | some s => s

/-- Join a row of cells with commas. -/
def joinCells (cells : List String) : String :=
  String.intercalate "," cells

/-- Header labels of the quiz CSV export, exactly as declared in
`GET /api/quiz-answers/csv`; the Excel export uses the same labels as
its object keys. -/
def quizCsvHeaders : List String :=
  ["ID", "Session ID", "Participant Name", "Participant Email", "Participant Mobile",
   "Question 1 Part 1", "Question 1 Part 2", "Question 2",
   "Question 3 Part 1", "Question 3 Part 2", "Question 4 Part 1", "Question 4 Part 2",
   "Question 5 Part 1", "Question 5 Part 2", "Question 6",
   "Recipient 1 Name", "Recipient 1 Role", "Recipient 2 Name", "Recipient 2 Position",
   "Question 7", "Additional Comments", "Submitted At", "Created At"]

/-- One data row of the quiz CSV export, cell by cell in header order. -/
def quizCsvCells (q : QuizSubmission) : List String :=
  [toString q.id,
   quotedCell q.session_id,
   quotedEscCell q.participant_name,
   quotedCell q.participant_email,
   quotedCell q.participant_mobile,
   quotedEscCell (orEmpty q.question1_part1),
   quotedEscCell (orEmpty q.question1_part2),
   quotedEscCell (orEmpty q.question2),
   quotedEscCell (orEmpty q.question3_part1),
   quotedEscCell (orEmpty q.question3_part2),
   quotedEscCell (orEmpty q.question4_part1),
   quotedEscCell (orEmpty q.question4_part2),
   quotedEscCell (orEmpty q.question5_part1),
   quotedEscCell (orEmpty q.question5_part2),
   quotedEscCell (orEmpty q.question6),
   quotedEscCell (orEmpty q.recipient1_name),
   quotedEscCell (orEmpty q.recipient1_role),
   quotedEscCell (orEmpty q.recipient2_name),
   quotedEscCell (orEmpty q.recipient2_position),
   quotedEscCell (orEmpty q.question7),
   quotedEscCell (orEmpty q.additional_comments),
   quotedCell q.submitted_at,
   quotedCell q.created_at]

/-- The full quiz CSV document: the header line, then one line per row,
accumulated exactly as the route concatenates them. -/
def quizCsv (rows : List QuizSubmission) : String :=
  rows.foldl (fun acc q => acc ++ joinCells (quizCsvCells q) ++ "\n")
    (joinCells quizCsvHeaders ++ "\n")

/-- Cell value of a nullable text column as handed to the spreadsheet
library (NULL stays null). -/
def optVal : Option String → JSVal
  | none => .nullV
  | some s => .str s

/-- The keyed record built for one quiz row by the Excel export of
`GET /api/quiz-answers/xlsx`; the keys are the human column labels. -/
def quizExcelRow (q : QuizSubmission) : List (String × JSVal) :=
  [("ID", .num q.id),
   ("Session ID", .str q.session_id),
   ("Participant Name", .str q.participant_name),
   ("Participant Email", .str q.participant_email),
   ("Participant Mobile", .str q.participant_mobile),
   ("Question 1 Part 1", optVal q.question1_part1),
   ("Question 1 Part 2", optVal q.question1_part2),
   ("Question 2", optVal q.question2),
   ("Question 3 Part 1", optVal q.question3_part1),
   ("Question 3 Part 2", optVal q.question3_part2),
   ("Question 4 Part 1", optVal q.question4_part1),
   ("Question 4 Part 2", optVal q.question4_part2),
   ("Question 5 Part 1", optVal q.question5_part1),
   ("Question 5 Part 2", optVal q.question5_part2),
   ("Question 6", optVal q.question6),
   ("Recipient 1 Name", optVal q.recipient1_name),
   ("Recipient 1 Role", optVal q.recipient1_role),
   ("Recipient 2 Name", optVal q.recipient2_name),
   ("Recipient 2 Position", optVal q.recipient2_position),
   ("Question 7", optVal q.question7),
   ("Additional Comments", optVal q.additional_comments),
   ("Submitted At", .str q.submitted_at),
   ("Created At", .str q.created_at)]

/-- The record list passed to the spreadsheet library by the Excel
export. -/
def quizExcelData (rows : List QuizSubmission) : List (List (String × JSVal)) :=
  rows.map quizExcelRow

/-- Column headers as the spreadsheet library `json_to_sheet` derives
them: the object keys of the records, accumulated in encounter order
(there is no independent header list — zero records yield zero
headers). -/
def sheetHeaders (rows : List (List (String × JSVal))) : List String :=
  rows.foldl
    (fun hs r =>
      r.foldl (fun hs kv => if hs.contains kv.1 then hs else hs ++ [kv.1]) hs)
    []

/-- Model of the spreadsheet library call `xlsx.utils.json_to_sheet`,
producing the sheet as its matrix of rows: the header row (the derived
header labels), then one row per record giving each header column its
value in that record. -/
def jsonToSheet (rows : List (List (String × JSVal))) : List (List JSVal) :=
  let hs := sheetHeaders rows
  (hs.map JSVal.str) ::
    rows.map fun r => hs.map fun k => lookupField r k

/-- Header labels of the combined CSV export
(`GET /api/export/combined?format=csv`), exactly as declared. -/
def combinedCsvHeaders : List String :=
  ["Score ID", "Session ID", "Puzzle Name", "Puzzle Email", "Completion Time (ms)",
   "Time String", "Difficulty", "Move Count", "Accuracy", "Puzzle Completed At",
   "Results Code", "Quiz ID", "Quiz Name", "Quiz Email", "Mobile",
   "Question 1 Part 1", "Question 1 Part 2", "Question 2",
   "Question 3 Part 1", "Question 3 Part 2", "Question 4 Part 1", "Question 4 Part 2",
   "Question 5 Part 1", "Question 5 Part 2", "Question 6",
   "Recipient 1 Name", "Recipient 1 Role", "Recipient 2 Name", "Recipient 2 Position",
   "Question 7", "Additional Comments", "Quiz Submitted At"]

/-- One data row of the combined CSV export, built from a joined row of
the export join (score columns are NOT NULL, quiz columns are NULL when
the LEFT JOIN found no match).  Every interpolation is `value || ..` so
each falsy value — NULL or zero — renders as the empty string. -/
def combinedCsvCells (p : Completion × Option QuizSubmission) : List String :=
  [intCell p.1.id,
   quotedCell p.1.session_id,
   quotedEscCell p.1.name,
   quotedCell p.1.email,
   intCell p.1.completion_time,
   quotedCell p.1.time_string,
   intCell p.1.difficulty,
   intCell p.1.move_count,
   intCell p.1.accuracy,
   quotedCell p.1.completed_at,
   quotedCell p.1.results_code,
   optNatCell (p.2.map (·.id)),
   quotedEscCell (orEmpty (p.2.map (·.participant_name))),
   quotedCell (orEmpty (p.2.map (·.participant_email))),
   quotedCell (orEmpty (p.2.map (·.participant_mobile))),
   quotedEscCell (orEmpty (p.2.bind (·.question1_part1))),
   quotedEscCell (orEmpty (p.2.bind (·.question1_part2))),
   quotedEscCell (orEmpty (p.2.bind (·.question2))),
   quotedEscCell (orEmpty (p.2.bind (·.question3_part1))),
   quotedEscCell (orEmpty (p.2.bind (·.question3_part2))),
   quotedEscCell (orEmpty (p.2.bind (·.question4_part1))),
   quotedEscCell (orEmpty (p.2.bind (·.question4_part2))),
   quotedEscCell (orEmpty (p.2.bind (·.question5_part1))),
   quotedEscCell (orEmpty (p.2.bind (·.question5_part2))),
   quotedEscCell (orEmpty (p.2.bind (·.question6))),
   quotedEscCell (orEmpty (p.2.bind (·.recipient1_name))),
   quotedEscCell (orEmpty (p.2.bind (·.recipient1_role))),
   quotedEscCell (orEmpty (p.2.bind (·.recipient2_name))),
   quotedEscCell (orEmpty (p.2.bind (·.recipient2_position))),
   quotedEscCell (orEmpty (p.2.bind (·.question7))),
   quotedEscCell (orEmpty (p.2.bind (·.additional_comments))),
   quotedCell (orEmpty (p.2.map (·.submitted_at)))]

/-- The full combined CSV document. -/
def combinedCsv (rows : List (Completion × Option QuizSubmission)) : String :=
  rows.foldl (fun acc p => acc ++ joinCells (combinedCsvCells p) ++ "\n")
    (joinCells combinedCsvHeaders ++ "\n")

/-- Sample score row with session S1. -/
def exCompletionS1 : Completion :=
  ⟨1, "S1", "Alice", "alice@example.com", 60000, "00:01:00", 8, 42, 95,
   "2024-01-01T00:00:00Z", "RES-1", "2024-01-01 00:00:01"⟩

/-- Sample score row with session S2 and a slower time. -/
def exCompletionS2 : Completion :=
  ⟨2, "S2", "Bob", "bob@example.com", 90000, "00:01:30", 8, 50, 80,
   "2024-01-01T00:10:00Z", "RES-2", "2024-01-01 00:10:01"⟩

/-- Sample score row whose numeric metrics are all zero. -/
def exCompletionZero : Completion :=
  ⟨3, "S3", "Cara", "cara@example.com", 0, "00:00:00", 0, 0, 0,
   "2024-01-02T00:00:00Z", "RES-3", "2024-01-02 00:00:01"⟩

/-- Sample quiz row for session S1 with email a@b.com and name Alice. -/
def exQuizA : QuizSubmission :=
  ⟨1, "S1", "Alice", "a@b.com", "0400000000",
   some "a1", none, none, none, none, none, none, none, none, none,
   none, none, none, none, none, none,
   "2024-01-01T00:05:00Z", "2024-01-01 00:05:01"⟩

/-- Second sample quiz row sharing session S1. -/
def exQuizB : QuizSubmission :=
  ⟨2, "S1", "Alina", "a2@b.com", "0400000001",
   some "b1", none, none, none, none, none, none, none, none, none,
   none, none, none, none, none, none,
   "2024-01-01T00:06:00Z", "2024-01-01 00:06:01"⟩

/-- Fully valid score payload except that accuracy is exactly zero. -/
def exPayloadAcc0 : ScorePayload :=
  ⟨.str "SESSION-1", .str "Alice", .str "alice@example.com", .num 60000,
   .str "00:01:00", .num 8, .num 42, .num 0,
   .str "2024-01-01T00:00:00Z", .str "RES-1"⟩

/-- Score payload missing exactly the session identifier; every other
field is present, truthy and well formed. -/
def exPayloadNoSession : ScorePayload :=
  ⟨.undefV, .str "Alice", .str "alice@example.com", .num 60000,
   .str "00:01:00", .num 8, .num 42, .num 95,
   .str "2024-01-01T00:00:00Z", .str "RES-1"⟩

/-- Sample raw quiz record as a JavaScript object. -/
def exRawQuiz : JSVal :=
  .obj [("participant_name", .str "Alice"), ("participant_email", .str "a@b.com"),
        ("participant_mobile", .str "0400000000"),
        ("submitted_at", .str "2024-01-01T00:05:00Z"),
        ("question2", .str "forty-two")]

/-- A list prefixed with itself and anything else passes `isPrefixOf`. -/
theorem isPrefixOf_append_self (p s : List Char) : p.isPrefixOf (p ++ s) = true := by
  induction p with
  | nil => simp [List.isPrefixOf]
  | cons c cs ih => simp [List.isPrefixOf, ih]

/-- Dropping seven characters from a bearer-tagged token recovers the
token, since the tag is seven characters long. -/
theorem bearerTag_drop (s : Tok) : (bearerTag ++ s).drop 7 = s := by
  have h : bearerTag.length = 7 := rfl
  rw [← h, List.drop_left]

/-- Destructing membership in the LEFT JOIN: every joined row comes from
a stored score row, a present quiz half is a stored quiz row matching
the session, and an absent quiz half means the session has no matching
quiz row at all. -/
theorem mem_leftJoinQuiz {scores : List Completion} {quiz : List QuizSubmission}
    {p : Completion × Option QuizSubmission} (hp : p ∈ leftJoinQuiz scores quiz) :
    p.1 ∈ scores ∧
    (match p.2 with
     | some q => q ∈ quiz ∧ q.session_id = p.1.session_id
     | none => quizMatches quiz p.1.session_id = []) := by
  rcases List.mem_flatMap.mp hp with ⟨s, hs, hmem⟩
  rcases hqm : quizMatches quiz s.session_id with _ | ⟨m, ms⟩
  · rw [hqm] at hmem
    simp only [List.mem_singleton] at hmem
    subst hmem
    exact ⟨hs, hqm⟩
  · rw [hqm] at hmem
    rcases List.mem_map.mp hmem with ⟨q, hq, rfl⟩
    rw [← hqm] at hq
    have hq2 := List.mem_filter.mp hq
    exact ⟨hs, hq2.1, eq_of_beq hq2.2⟩

/-- A score row with no matching quiz row contributes its null-joined row
to the LEFT JOIN. -/
theorem leftJoinQuiz_mem_none {scores : List Completion} {quiz : List QuizSubmission}
    {s : Completion} (hs : s ∈ scores) (hq : quizMatches quiz s.session_id = []) :
    (s, (none : Option QuizSubmission)) ∈ leftJoinQuiz scores quiz := by
  apply List.mem_flatMap.mpr
  refine ⟨s, hs, ?_⟩
  rw [hq]
  simp

/-- A score row contributes one joined row for each matching quiz row. -/
theorem leftJoinQuiz_mem_some {scores : List Completion} {quiz : List QuizSubmission}
    {s : Completion} {q : QuizSubmission} (hs : s ∈ scores)
    (hq : q ∈ quizMatches quiz s.session_id) :
    (s, some q) ∈ leftJoinQuiz scores quiz := by
  apply List.mem_flatMap.mpr
  refine ⟨s, hs, ?_⟩
  rcases hqm : quizMatches quiz s.session_id with _ | ⟨m, ms⟩
  · rw [hqm] at hq
    cases hq
  · rw [hqm] at hq
    exact List.mem_map.mpr ⟨q, hq, rfl⟩

/-- Rows surviving the optional difficulty filter are stored rows, and
match the filter when one was given. -/
theorem mem_filterByDifficulty {scores : List Completion} {d : Option Int}
    {s : Completion} (hs : s ∈ filterByDifficulty scores d) :
    s ∈ scores ∧ ∀ dd, d = some dd → s.difficulty = dd := by
  cases d with
  | none => exact ⟨hs, fun dd h => by cases h⟩
  | some dd =>
      have h2 := List.mem_filter.mp hs
      refine ⟨h2.1, fun dd2 h => ?_⟩
      cases h
      exact eq_of_beq h2.2

/-- C2: while the readiness tracker is in any state other than Ready,
every embedded store operation — score submission, quiz duplicate check,
combined leaderboard — answers StoreUnavailable and leaves the store
untouched; in particular the failed submission inserts nothing. -/
theorem readiness_gate (st : DBState) (hst : st ≠ .ready)
    (scores : List ScorePayload) (cstore : List Completion)
    (quiz : List QuizSubmission) (p : ScorePayload) (email name : String)
    (d : Option Int) (limit : Nat) :
    postScores st scores p = (.storeUnavailable, scores) ∧
    checkDuplicateQuiz st quiz email name = .storeUnavailable ∧
    leaderboardWithQuiz st cstore quiz d limit = .storeUnavailable := by
  have h : st.isReady = false := by
    cases st <;> simp_all [DBState.isReady]
  exact ⟨by simp [postScores, h], by simp [checkDuplicateQuiz, h],
    by simp [leaderboardWithQuiz, h]⟩

/-- C2 witness: submitting a valid score during Initializing fails with
StoreUnavailable and the empty store stays empty. -/
theorem readiness_gate_witness :
    DBState.initializing ≠ DBState.ready ∧
    postScores .initializing [] exPayloadAcc0 = (.storeUnavailable, []) :=
  ⟨by decide,
   (readiness_gate .initializing (by decide) [] [] [] exPayloadAcc0 "e" "n" none 10).1⟩

/-- C3 counterexample: for a payload whose only missing field is the
session identifier, the ValidationError lists all ten required field
names — in particular the name field, which is present and truthy — so
the error does not list exactly the missing fields. -/
theorem scores_error_lists_nonmissing_field :
    postScores .ready [] exPayloadNoSession = (.missingFields requiredScoreFields, []) ∧
    "name" ∈ requiredScoreFields ∧ truthy exPayloadNoSession.name = true := by
  refine ⟨rfl, by decide, rfl⟩

/-- C3 amended: a payload failing the missing-field check is rejected
with the full ten-name required list, and the store is returned exactly
as it was — no record is persisted, so the record count is unchanged. -/
theorem scores_validation_blocks_persistence (store : List ScorePayload)
    (p : ScorePayload) (hp : scoreFieldsMissing p = true) :
    postScores .ready store p = (.missingFields requiredScoreFields, store) ∧
    (postScores .ready store p).2.length = store.length := by
  constructor
  · simp [postScores, hp, DBState.isReady]
  · simp [postScores, hp, DBState.isReady]

/-- C3 witness: the no-session payload is missing a field, is rejected
with the full required list, and leaves an empty store empty. -/
theorem scores_validation_blocks_persistence_witness :
    postScores .ready [] exPayloadNoSession = (.missingFields requiredScoreFields, []) :=
  (scores_validation_blocks_persistence [] exPayloadNoSession rfl).1

/-- C4: a zero completion time, difficulty or move count is rejected by
the truthiness-style missing-field check, while zero accuracy — with
every other required field truthy and a well-formed email — passes
validation and the record is inserted. -/
theorem zero_metrics_validation (p : ScorePayload) (store : List ScorePayload) :
    (p.completionTime = .num 0 →
       postScores .ready store p = (.missingFields requiredScoreFields, store)) ∧
    (p.difficulty = .num 0 →
       postScores .ready store p = (.missingFields requiredScoreFields, store)) ∧
    (p.moveCount = .num 0 →
       postScores .ready store p = (.missingFields requiredScoreFields, store)) ∧
    (p.accuracy = .num 0 →
       truthy p.sessionId = true → truthy p.name = true → truthy p.email = true →
       truthy p.completionTime = true → truthy p.timeString = true →
       truthy p.difficulty = true → truthy p.moveCount = true →
       truthy p.completedAt = true → truthy p.resultsCode = true →
       emailOk p.email = true →
       postScores .ready store p = (.saved, store ++ [p])) := by
  refine ⟨?_, ?_, ?_, ?_⟩
  · intro h
    have ht : truthy p.completionTime = false := by rw [h]; rfl
    simp [postScores, scoreFieldsMissing, ht, DBState.isReady]
  · intro h
    have ht : truthy p.difficulty = false := by rw [h]; rfl
    simp [postScores, scoreFieldsMissing, ht, DBState.isReady]
  · intro h
    have ht : truthy p.moveCount = false := by rw [h]; rfl
    simp [postScores, scoreFieldsMissing, ht, DBState.isReady]
  · intro hacc h1 h2 h3 h4 h5 h6 h7 h8 h9 hemail
    have hu : isUndef p.accuracy = false := by rw [hacc]; rfl
    simp [postScores, scoreFieldsMissing, h1, h2, h3, h4, h5, h6, h7, h8, h9,
      hu, hemail, DBState.isReady]

/-- C4 witness: the concrete payload with accuracy zero and all other
fields valid is accepted and persisted. -/
theorem zero_metrics_validation_witness :
    postScores .ready [] exPayloadAcc0 = (.saved, [exPayloadAcc0]) ∧
    exPayloadAcc0.accuracy = .num 0 :=
  ⟨(zero_metrics_validation exPayloadAcc0 []).2.2.2 rfl rfl rfl rfl rfl rfl rfl rfl
     rfl rfl rfl, rfl⟩

/-- C5 counterexample: when only the self-test delete fails, the tracker
still ends Ready (the delete callback sets readiness unconditionally),
so an error at that step does not move the state to Failed. -/
theorem init_ready_despite_delete_error :
    initDatabase ⟨none, none, none, none, some "disk I/O error"⟩ = .ready ∧
    DBState.ready ≠ DBState.failed "disk I/O error" :=
  ⟨rfl, by decide⟩

/-- C5 amended: the tracker reaches Ready exactly when opening the
connection, creating both tables and the self-test insert all succeed
(the self-test delete result is ignored), and any error among those four
steps yields Failed carrying that error message, the first failing step
winning. -/
theorem init_state_machine (env : InitEnv) :
    (initDatabase env = .ready ↔
      env.openErr = none ∧ env.createScoresErr = none ∧
      env.createQuizErr = none ∧ env.testInsertErr = none) ∧
    (∀ e, env.openErr = some e → initDatabase env = .failed e) ∧
    (∀ e, env.openErr = none → env.createScoresErr = some e →
      initDatabase env = .failed e) ∧
    (∀ e, env.openErr = none → env.createScoresErr = none →
      env.createQuizErr = some e → initDatabase env = .failed e) ∧
    (∀ e, env.openErr = none → env.createScoresErr = none →
      env.createQuizErr = none → env.testInsertErr = some e →
      initDatabase env = .failed e) := by
  obtain ⟨o, cs, cq, ti, td⟩ := env
  refine ⟨?_, ?_, ?_, ?_, ?_⟩ <;>
    cases o <;> cases cs <;> cases cq <;> cases ti <;> simp [initDatabase]

/-- C5 witness: an open failure yields Failed with that message, and the
all-success environment yields Ready. -/
theorem init_state_machine_witness :
    initDatabase ⟨some "boom", none, none, none, none⟩ = .failed "boom" ∧
    initDatabase ⟨none, none, none, none, none⟩ = .ready :=
  ⟨(init_state_machine ⟨some "boom", none, none, none, none⟩).2.1 "boom" rfl,
   (init_state_machine ⟨none, none, none, none, none⟩).1.mpr ⟨rfl, rfl, rfl, rfl⟩⟩

/-- C6: for nonempty inputs in the Ready state, the duplicate check
reports isDuplicate exactly when some stored quiz row matches the email
or the name, and existingCount is the number of matching rows. -/
theorem dup_check_email_or_name (quiz : List QuizSubmission) (email name : String)
    (he : email ≠ "") (hn : name ≠ "") :
    checkDuplicateQuiz .ready quiz email name =
      .ok (decide (∃ q ∈ quiz, q.participant_email = email ∨ q.participant_name = name))
        ((quiz.filter (dupMatches email name)).length) := by
  have key : (0 < (quiz.filter (dupMatches email name)).length) ↔
      (∃ q ∈ quiz, q.participant_email = email ∨ q.participant_name = name) := by
    rw [← List.countP_eq_length_filter, List.countP_pos_iff]
    simp [dupMatches]
  have he2 : (email == "") = false := by simp [he]
  have hn2 : (name == "") = false := by simp [hn]
  simp only [checkDuplicateQuiz, DBState.isReady, Bool.not_true, he2, hn2,
    Bool.or_self, Bool.false_or, if_false, Bool.false_eq_true]
  rw [decide_eq_decide.mpr key]

/-- C6 witness: against a store holding the quiz row (a@b.com, Alice),
checking (a@b.com, Bob) flags a duplicate with count one — the email
match alone suffices — and checking (c@d.com, Carol) reports none. -/
theorem dup_check_email_or_name_witness :
    checkDuplicateQuiz .ready [exQuizA] "a@b.com" "Bob" = .ok true 1 ∧
    checkDuplicateQuiz .ready [exQuizA] "c@d.com" "Carol" = .ok false 0 := by
  have h1 := dup_check_email_or_name [exQuizA] "a@b.com" "Bob" (by decide) (by decide)
  have h2 := dup_check_email_or_name [exQuizA] "c@d.com" "Carol" (by decide) (by decide)
  exact ⟨by rw [h1]; decide, by rw [h2]; decide⟩

/-- C7: with a nonempty configured secret, presenting it via the bearer
header, the custom header or the query parameter (in that priority
order) all lead to the same allowed outcome; a wrong token on any
carrier is rejected as invalid, and a request with no token at all is
rejected with the hint naming the three mechanisms. -/
theorem auth_three_carriers (secret : Tok) (hs : secret ≠ []) :
    (∀ xa qt, authenticateAdmin secret ⟨some (bearerTag ++ secret), xa, qt⟩ = .allowed) ∧
    (∀ qt, authenticateAdmin secret ⟨none, some secret, qt⟩ = .allowed) ∧
    (authenticateAdmin secret ⟨none, none, some secret⟩ = .allowed) ∧
    (∀ t, t ≠ secret → t ≠ [] →
      authenticateAdmin secret ⟨some (bearerTag ++ t), none, none⟩ = .invalidToken ∧
      authenticateAdmin secret ⟨none, some t, none⟩ = .invalidToken ∧
      authenticateAdmin secret ⟨none, none, some t⟩ = .invalidToken) ∧
    (authenticateAdmin secret ⟨none, none, none⟩ = .authRequired authHint) := by
  have hse : secret.isEmpty = false := by
    cases secret with
    | nil => exact absurd rfl hs
    | cons c cs => rfl
  refine ⟨?_, ?_, ?_, ?_, rfl⟩
  · intro xa qt
    simp [authenticateAdmin, isPrefixOf_append_self, bearerTag_drop, hse]
  · intro qt
    simp [authenticateAdmin, firstTruthy, optTruthy, hse]
  · simp [authenticateAdmin, firstTruthy, optTruthy, hse]
  · intro t ht hte
    have hte2 : t.isEmpty = false := by
      cases t with
      | nil => exact absurd rfl hte
      | cons c cs => rfl
    refine ⟨?_, ?_, ?_⟩ <;>
      simp [authenticateAdmin, firstTruthy, optTruthy, isPrefixOf_append_self,
        bearerTag_drop, hte2, ht]

/-- C7 witness: for the concrete secret tok, the three carriers succeed
identically, a wrong token fails as invalid, and no token fails with the
hint. -/
theorem auth_three_carriers_witness :
    authenticateAdmin "tok".toList ⟨some (bearerTag ++ "tok".toList), none, none⟩ = .allowed ∧
    authenticateAdmin "tok".toList ⟨none, some ("tok".toList), none⟩ = .allowed ∧
    authenticateAdmin "tok".toList ⟨none, none, some ("tok".toList)⟩ = .allowed ∧
    authenticateAdmin "tok".toList ⟨none, some ("bad".toList), none⟩ = .invalidToken ∧
    authenticateAdmin "tok".toList ⟨none, none, none⟩ = .authRequired authHint := by
  have h := auth_three_carriers ("tok".toList) (by decide)
  exact ⟨h.1 none none, h.2.1 none, h.2.2.1,
    (h.2.2.2.1 ("bad".toList) (by decide) (by decide)).2.1, h.2.2.2.2⟩

/-- C8 counterexample: applying the Formatted transformer twice is not
the same as applying it once — on the sample raw record the second
application loses the participant name, because the formatted shape no
longer exposes the raw field names the transformer reads. -/
theorem formatQuizAnswers_not_idempotent :
    formatQuizAnswers (formatQuizAnswers exRawQuiz) ≠ formatQuizAnswers exRawQuiz := by
  intro h
  have h2 : getField (getField (formatQuizAnswers (formatQuizAnswers exRawQuiz))
        "participant_info") "name"
      = getField (getField (formatQuizAnswers exRawQuiz) "participant_info") "name" := by
    rw [h]
  have hL : getField (getField (formatQuizAnswers (formatQuizAnswers exRawQuiz))
      "participant_info") "name" = .undefV := rfl
  have hR : getField (getField (formatQuizAnswers exRawQuiz) "participant_info")
      "name" = .str "Alice" := rfl
  rw [hL, hR] at h2
  exact JSVal.noConfusion h2

/-- C8 amended: a second application of the Formatted transformer
collapses every record to the same constant structure — the one obtained
from the empty record — since the formatted shape exposes none of the
raw field names the transformer reads. -/
theorem formatQuizAnswers_twice_constant (r : JSVal) :
    formatQuizAnswers (formatQuizAnswers r) = formatQuizAnswers (.obj []) := rfl

/-- C9 counterexample: on zero records the spreadsheet transformer yields
a sheet whose only row is empty — the declared human labels appear
nowhere in it — because the library derives column headers from record
object keys and an empty record set provides none. -/
theorem xlsx_empty_has_no_header_labels :
    jsonToSheet (quizExcelData []) = [[]] ∧
    (quizCsvHeaders.map JSVal.str) ∉ jsonToSheet (quizExcelData []) := by
  refine ⟨rfl, ?_⟩
  intro hmem
  rw [show jsonToSheet (quizExcelData []) = [[]] from rfl] at hmem
  simp only [List.mem_singleton, List.map_eq_nil_iff] at hmem
  simp [quizCsvHeaders] at hmem

set_option maxRecDepth 8192 in
/-- C9 amended: on an empty record set the CSV transformer produces
exactly the header line of declared human labels, and the spreadsheet
transformer produces, without error, a sheet with no header labels at
all. -/
theorem empty_export_outputs :
    quizCsv [] = joinCells quizCsvHeaders ++ "\n" ∧
    quizCsv [] = "ID,Session ID,Participant Name,Participant Email,Participant Mobile,Question 1 Part 1,Question 1 Part 2,Question 2,Question 3 Part 1,Question 3 Part 2,Question 4 Part 1,Question 4 Part 2,Question 5 Part 1,Question 5 Part 2,Question 6,Recipient 1 Name,Recipient 1 Role,Recipient 2 Name,Recipient 2 Position,Question 7,Additional Comments,Submitted At,Created At\n" ∧
    jsonToSheet (quizExcelData []) = [[]] := by
  refine ⟨rfl, ?_, rfl⟩
  decide

/-- C10: in the combined CSV a zero completion time, difficulty, move
count or accuracy renders as the empty cell, exactly as an absent quiz
value does, because every such cell is built with a falsy-or-empty
interpolation. -/
theorem combined_csv_zero_renders_empty (p : Completion × Option QuizSubmission) :
    (p.1.completion_time = 0 → (combinedCsvCells p).getD 4 "?" = "") ∧
    (p.1.difficulty = 0 → (combinedCsvCells p).getD 6 "?" = "") ∧
    (p.1.move_count = 0 → (combinedCsvCells p).getD 7 "?" = "") ∧
    (p.1.accuracy = 0 → (combinedCsvCells p).getD 8 "?" = "") ∧
    (p.2 = none → (combinedCsvCells p).getD 11 "?" = "") := by
  refine ⟨?_, ?_, ?_, ?_, ?_⟩ <;> intro h <;>
    simp [combinedCsvCells, intCell, optNatCell, h]

/-- C10 witness: the all-zero score row renders empty cells in the four
numeric metric columns and in the quiz id column, and column 8 of the
declared headers is indeed Accuracy. -/
theorem combined_csv_zero_renders_empty_witness :
    (combinedCsvCells (exCompletionZero, none)).getD 4 "?" = "" ∧
    (combinedCsvCells (exCompletionZero, none)).getD 6 "?" = "" ∧
    (combinedCsvCells (exCompletionZero, none)).getD 7 "?" = "" ∧
    (combinedCsvCells (exCompletionZero, none)).getD 8 "?" = "" ∧
    (combinedCsvCells (exCompletionZero, none)).getD 11 "?" = "" ∧
    combinedCsvHeaders.getD 8 "?" = "Accuracy" := by
  have h := combined_csv_zero_renders_empty (exCompletionZero, none)
  exact ⟨h.1 rfl, h.2.1 rfl, h.2.2.1 rfl, h.2.2.2.1 rfl, h.2.2.2.2 rfl, rfl⟩

/-- C1 counterexample: with one stored Completion for session S1 and two
stored QuizSubmissions for the same session, the joined leaderboard
returns two rows for that single Completion — one per matching
QuizSubmission — rather than one row joined with only the first match. -/
theorem joined_leaderboard_duplicates_rows :
    getJoinedLeaderboard [exCompletionS1] [exQuizA, exQuizB] none 10 =
      [(exCompletionS1, some exQuizA), (exCompletionS1, some exQuizB)] ∧
    getJoinedLeaderboard [exCompletionS1] [exQuizA, exQuizB] none 10 ≠
      [(exCompletionS1, some exQuizA)] := by
  refine ⟨?_, ?_⟩ <;> decide

/-- C1 amended: the joined leaderboard result is ordered by completion
time ascending, holds at most the requested count of joined rows, every
row pairs a stored filter-matching Completion with either a stored
QuizSubmission of the same session identifier or an explicit null when
no quiz row matches, and whenever the limit covers the whole join, each
filter-matching Completion appears with every one of its quiz matches —
or with the explicit null row — rather than being dropped. -/
theorem joined_leaderboard_spec (scores : List Completion) (quiz : List QuizSubmission)
    (difficulty : Option Int) (limit : Nat) :
    (getJoinedLeaderboard scores quiz difficulty limit).length ≤ limit ∧
    List.Pairwise rowTimeLE (getJoinedLeaderboard scores quiz difficulty limit) ∧
    (∀ p ∈ getJoinedLeaderboard scores quiz difficulty limit,
      p.1 ∈ scores ∧
      (∀ dd, difficulty = some dd → p.1.difficulty = dd) ∧
      (match p.2 with
       | some q => q ∈ quiz ∧ q.session_id = p.1.session_id
       | none => quizMatches quiz p.1.session_id = [])) ∧
    ((leftJoinQuiz (filterByDifficulty scores difficulty) quiz).length ≤ limit →
      ∀ s ∈ filterByDifficulty scores difficulty,
        (quizMatches quiz s.session_id = [] →
          (s, (none : Option QuizSubmission)) ∈
            getJoinedLeaderboard scores quiz difficulty limit) ∧
        (∀ q ∈ quizMatches quiz s.session_id,
          (s, some q) ∈ getJoinedLeaderboard scores quiz difficulty limit)) := by
  refine ⟨?_, ?_, ?_, ?_⟩
  · rw [getJoinedLeaderboard, List.length_take]
    exact min_le_left _ _
  · exact List.Pairwise.sublist (List.take_sublist _ _)
      (List.sorted_insertionSort rowTimeLE _)
  · intro p hp
    have hp2 : p ∈ List.insertionSort rowTimeLE
        (leftJoinQuiz (filterByDifficulty scores difficulty) quiz) :=
      List.take_subset _ _ hp
    have hp3 := (List.mem_insertionSort rowTimeLE).mp hp2
    have hj := mem_leftJoinQuiz hp3
    have hf := mem_filterByDifficulty hj.1
    exact ⟨hf.1, hf.2, hj.2⟩
  · intro hlen s hs
    have hall : getJoinedLeaderboard scores quiz difficulty limit =
        List.insertionSort rowTimeLE
          (leftJoinQuiz (filterByDifficulty scores difficulty) quiz) := by
      rw [getJoinedLeaderboard]
      exact List.take_of_length_le
        (le_trans (le_of_eq (List.perm_insertionSort rowTimeLE _).length_eq) hlen)
    constructor
    · intro hq
      rw [hall, List.mem_insertionSort]
      exact leftJoinQuiz_mem_none hs hq
    · intro q hq
      rw [hall, List.mem_insertionSort]
      exact leftJoinQuiz_mem_some hs hq

/-- C1 witness: with limit ten covering the whole join, the session S2
Completion with no quiz match appears as an explicit null row, and the
session S1 Completion appears joined with its matching quiz row. -/
theorem joined_leaderboard_spec_witness :
    (exCompletionS2, (none : Option QuizSubmission)) ∈
      getJoinedLeaderboard [exCompletionS1, exCompletionS2] [exQuizA] none 10 ∧
    (exCompletionS1, some exQuizA) ∈
      getJoinedLeaderboard [exCompletionS1, exCompletionS2] [exQuizA] none 10 := by
  have h := joined_leaderboard_spec [exCompletionS1, exCompletionS2] [exQuizA] none 10
  have hc := h.2.2.2 (by decide)
  exact ⟨(hc exCompletionS2 (by decide)).1 (by decide),
    (hc exCompletionS1 (by decide)).2 exQuizA (by decide)⟩

end FFC
